import Mathlib

/-!
Verification of the alert_IQ confluence-alerting core against its specification.

The development shallowly embeds the three core modules:
  * `tools/ema_engine_production.py`  (class `ProductionEMAEngine`)
  * `tools/volume_oi_engine.py`       (class `VolumeOIEngine`)
  * `tools/confluence_alert_engine.py` (class `ConfluenceAlertEngine`)

Python floats are modelled as rationals (`ℚ`); network fetches are modelled as
explicit inputs (`Option`-valued fetch environments); dictionaries keyed by
timeframe are modelled as records with one field per timeframe, iterated in the
source's insertion order `15m, 1h, 4h, 1d`.
-/

namespace AlertIQ

attribute [local semireducible] Rat.add Rat.mul Rat.sub Rat.inv

/-- The four candle timeframes of `TIMEFRAMES` in both engines. -/
inductive Tf
  | m15
  | h1
  | h4
  | d1
deriving DecidableEq, Repr

/-- Iteration order of the `TIMEFRAMES` dict (Python dicts iterate in insertion order). -/
def tfOrder : List Tf := [Tf.m15, Tf.h1, Tf.h4, Tf.d1]

/-- The timeframe's string key, as used in alert keys and messages. -/
def tfStr : Tf → String
  | .m15 => "15m"
  | .h1 => "1h"
  | .h4 => "4h"
  | .d1 => "1d"

/-- `statistics.mean` on a list of rationals (sources only call it on nonempty lists;
on `[]` this model yields `0` where Python raises, all call sites are guarded). -/
def listMean (l : List ℚ) : ℚ := l.sum / Rat.ofInt l.length

/-- Python `int()` applied to a float: truncation toward zero.
`Int` division in Lean rounds toward zero, matching Python `int()`. -/
def pyTrunc (q : ℚ) : ℤ := q.num / (q.den : ℤ)

/-! ## EMA engine (`tools/ema_engine_production.py`) -/

/-- One entry of `PRODUCTION_CONFIGS`. -/
structure EmaConfig where
  limit : ℕ
  sma_period : ℕ
  ema_period : ℕ

/-- `PRODUCTION_CONFIGS` from `ema_engine_production.py`. -/
def PRODUCTION_CONFIGS : Tf → EmaConfig
  | .m15 => ⟨200, 5, 195⟩
  | .h1 => ⟨500, 10, 200⟩
  | .h4 => ⟨500, 5, 200⟩
  | .d1 => ⟨300, 12, 200⟩

/-- The smoothed series of `calculate_ema`:
`smoothed[i] = mean(close_prices[i : i + sma_period])` for
`i in range(len(close_prices) - sma_period + 1)`.
`l.length + 1 - w` is the ℕ-truncated form of Python's `range` bound
`len - w + 1` (empty when `len < w`, matching `range` of a non-positive bound). -/
def smoothedSeries (close_prices : List ℚ) (w : ℕ) : List ℚ :=
  (List.range (close_prices.length + 1 - w)).map
    (fun i => listMean ((close_prices.drop i).take w))

/-- `ProductionEMAEngine.calculate_ema`: `none` models the `ValueError`
raised when there are fewer than `sma_period + ema_period` closes. -/
def calculate_ema (close_prices : List ℚ) (tf : Tf) : Option ℚ :=
  let config := PRODUCTION_CONFIGS tf
  if close_prices.length < config.sma_period + config.ema_period then none
  else
    let smoothed := smoothedSeries close_prices config.sma_period
    let multiplier : ℚ := 2 / (Rat.ofInt config.ema_period + 1)
    let seed := listMean (smoothed.take config.ema_period)
    some ((smoothed.drop config.ema_period).foldl
      (fun ema price => (price - ema) * multiplier + ema) seed)

/-- One valid per-timeframe entry of `analyze_ema`'s result dict. -/
structure EmaSignal where
  current_price : ℚ
  ema_200 : ℚ
  percentage_diff : ℚ
  above_ema : Bool
deriving DecidableEq, Repr

/-- A per-timeframe entry of `analyze_ema`'s result dict: either the signal
fields or an `{"error": ...}` entry. -/
inductive EmaResult
  | ok (s : EmaSignal)
  | error
deriving DecidableEq, Repr

/-- The fetch environment of one `analyze_ema` call: the ticker price returned by
`get_current_price` (`none` models its `None` fallback) and, per timeframe, the
close prices returned by `fetch_candles` (`none` models a raised fetch error). -/
structure EmaFetchEnv where
  ticker : Option ℚ
  c15 : Option (List ℚ)
  c1h : Option (List ℚ)
  c4h : Option (List ℚ)
  c1d : Option (List ℚ)
deriving DecidableEq, Repr

/-- The candle fetch result for a timeframe. -/
def EmaFetchEnv.candles (env : EmaFetchEnv) : Tf → Option (List ℚ)
  | .m15 => env.c15
  | .h1 => env.c1h
  | .h4 => env.c4h
  | .d1 => env.c1d

/-- The body of one iteration of `analyze_ema`'s per-timeframe loop.

Mirrors the source exactly: if the fetch raised, the entry is an error and
`current_price` is unchanged; otherwise, if `current_price` is `None` it is set
to `prices[-1]` (raising on an empty list, hence an error entry with
`current_price` still `None`); then `calculate_ema` either raises
(insufficient data → error entry) or yields the signal fields. -/
def analyzeStep (current_price : Option ℚ) (fetched : Option (List ℚ)) (tf : Tf) :
    Option ℚ × EmaResult :=
  match fetched with
  | none => (current_price, EmaResult.error)
  | some prices =>
    let cp := match current_price with
      | none => prices.getLast?
      | some p => some p
    match cp with
    | none => (none, EmaResult.error)
    | some p =>
      match calculate_ema prices tf with
      | none => (some p, EmaResult.error)
      | some ema_val =>
        let pct_diff := (p - ema_val) / ema_val * 100
        (some p, EmaResult.ok ⟨p, ema_val, pct_diff, decide (pct_diff > 0)⟩)

/-- The result dict of `analyze_ema`, one entry per timeframe. -/
structure EmaResults where
  m15 : EmaResult
  h1 : EmaResult
  h4 : EmaResult
  d1 : EmaResult
deriving DecidableEq, Repr

/-- Look up a timeframe's entry. -/
def EmaResults.get (r : EmaResults) : Tf → EmaResult
  | .m15 => r.m15
  | .h1 => r.h1
  | .h4 => r.h4
  | .d1 => r.d1

/-- `ProductionEMAEngine.analyze_ema`: iterates the timeframes in order,
threading the mutable `current_price` local through the loop. -/
def analyze_ema (env : EmaFetchEnv) : EmaResults :=
  let s1 := analyzeStep env.ticker env.c15 Tf.m15
  let s2 := analyzeStep s1.1 env.c1h Tf.h1
  let s3 := analyzeStep s2.1 env.c4h Tf.h4
  let s4 := analyzeStep s3.1 env.c1d Tf.d1
  ⟨s1.2, s2.2, s3.2, s4.2⟩

/-! ## Reference EMA, modelled from the specification's words (for the
refinement claim): "Apply a trailing simple moving average of width
`smoothing_period` over closing prices to produce a smoothed series. Seed the
EMA as the mean of the first `ema_period` smoothed values; then iterate
remaining smoothed values with multiplier `2/(ema_period+1)`:
`ema = (value - ema) * multiplier + ema`." -/

/-- The trailing simple moving average of width `w`: the sequence of means of
each length-`w` window of consecutive closes, oldest window first. -/
def trailingSMA (w : ℕ) : List ℚ → List ℚ
  | [] => []
  | c :: cs =>
    if cs.length + 1 < w then []
    else listMean ((c :: cs).take w) :: trailingSMA w cs

/-- The specification's reference EMA over a close series. -/
def referenceEMA (close_prices : List ℚ) (w ema_period : ℕ) : ℚ :=
  let smoothed := trailingSMA w close_prices
  let seed := listMean (smoothed.take ema_period)
  (smoothed.drop ema_period).foldl
    (fun ema value => (value - ema) * (2 / (Rat.ofInt ema_period + 1)) + ema) seed

/-- The source's forward-window smoothed series coincides with the
specification's trailing SMA (for positive width). -/
theorem smoothedSeries_eq_trailingSMA (w : ℕ) (hw : 1 ≤ w) :
    ∀ l : List ℚ, smoothedSeries l w = trailingSMA w l := by
  intro l
  induction l with
  | nil =>
    simp [smoothedSeries, trailingSMA, Nat.sub_eq_zero_of_le hw]
  | cons c cs ih =>
    by_cases h : cs.length + 1 < w
    · have h0 : cs.length + 1 + 1 - w = 0 := Nat.sub_eq_zero_of_le h
      simp [smoothedSeries, trailingSMA, h, h0]
    · push_neg at h
      have hlen : cs.length + 1 + 1 - w = (cs.length + 1 - w) + 1 := by omega
      simp only [smoothedSeries, trailingSMA, List.length_cons, hlen,
        if_neg (by omega : ¬ cs.length + 1 < w)]
      rw [List.range_succ_eq_map]
      simp only [List.map_cons, List.map_map]
      congr 1

/-! ## Volume/OI engine (`tools/volume_oi_engine.py`) -/

/-- One entry of `VOLUME_CONFIGS`. -/
structure VolumeConfig where
  limit : ℕ
  ma_period : ℕ
  spike_threshold : ℚ

/-- `VOLUME_CONFIGS` from `volume_oi_engine.py`. -/
def VOLUME_CONFIGS : Tf → VolumeConfig
  | .m15 => ⟨200, 20, 50⟩
  | .h1 => ⟨500, 20, 75⟩
  | .h4 => ⟨300, 15, 100⟩
  | .d1 => ⟨200, 10, 50⟩

/-- The result fields of `calculate_volume_metrics`. -/
structure VolumeMetrics where
  current_volume : ℚ
  volume_ma : ℚ
  volume_spike_pct : ℚ
  is_volume_spike : Bool
  spike_threshold : ℚ
deriving DecidableEq, Repr

/-- `VolumeOIEngine.calculate_volume_metrics`: `none` models the
`{"error": "Not enough volume data"}` return when `len(volumes) < ma_period`.
(All call sites use `VOLUME_CONFIGS`, whose `ma_period` is positive, so the
`volumes[-1]` access is guarded; `getD 0` is unreachable there.) -/
def calculate_volume_metrics (volumes : List ℚ) (config : VolumeConfig) :
    Option VolumeMetrics :=
  if volumes.length < config.ma_period then none
  else
    let current_volume := volumes.getLast?.getD 0
    let recent_volumes := volumes.drop (volumes.length - config.ma_period)
    let volume_ma := listMean recent_volumes
    let volume_spike_pct := (current_volume - volume_ma) / volume_ma * 100
    some ⟨current_volume, volume_ma, volume_spike_pct,
      decide (volume_spike_pct ≥ config.spike_threshold), config.spike_threshold⟩

/-- The synthetic historical-OI series of `fetch_historical_oi`'s fallback:
starting from the current OI, repeatedly multiply by `(1 + variation)`,
each new value becoming the next base. The random draws from
`random.uniform(-0.05, 0.05)` are modelled as an explicit input list. -/
def synthesizeOi (base : ℚ) : List ℚ → List ℚ
  | [] => []
  | v :: vs =>
    let x := base * (1 + v)
    x :: synthesizeOi x vs

/-- `VolumeOIEngine.fetch_historical_oi`. The two OI-history endpoints are
modelled as `Option (List ℚ)` inputs (`none` = endpoint unavailable or empty),
the current-OI snapshot as `Option ℚ`, and the random variations of the
fallback as an input list (the source draws 20 of them). When both endpoints
fail and a current OI exists, the source fabricates a synthetic history;
only when the current OI is also unavailable does it return `[]`. -/
def fetch_historical_oi (endpoint_oi alt_oi : Option (List ℚ))
    (current_oi : Option ℚ) (variations : List ℚ) : List ℚ :=
  match endpoint_oi with
  | some l => l
  | none =>
    match alt_oi with
    | some l => l
    | none =>
      match current_oi with
      | some c => synthesizeOi c variations
      | none => []

/-- The divergence classes of `detect_divergences`. -/
inductive Divergence
  | bearish_divergence
  | trend_continuation
  | bullish_confirmation
  | potential_reversal
deriving DecidableEq, Repr

/-! ## Confluence engine (`tools/confluence_alert_engine.py`) -/

/-- Alert priority levels. The source stores them as strings; every alert the
source constructs uses one of these four, and the sort key
`priority_order.get(p, 3)` maps them as `prioNum` below. -/
inductive Priority
  | critical
  | high
  | medium
  | low
deriving DecidableEq, Repr

/-- The `priority_order` dict used as the sort key. -/
def prioNum : Priority → ℕ
  | .critical => 0
  | .high => 1
  | .medium => 2
  | .low => 3

/-- The alert kinds (`"type"` field) constructed by the rule methods. -/
inductive AlertType
  | volume_spike
  | volume_low
  | oi_change
  | oi_surge
  | bullish_confluence
  | bearish_confluence
  | triple_bullish_confluence
  | triple_bearish_confluence
  | bearish_divergence
  | potential_reversal
  | multi_tf_bullish
  | multi_tf_bearish
deriving DecidableEq, Repr

/-- The `"timeframe"` field of an alert: a concrete timeframe or `"multi"`. -/
inductive ATf
  | tf (t : Tf)
  | multi
deriving DecidableEq, Repr

/-- An alert dict as built by the rule methods. The free-text `message` and
`details` fields are omitted; `alert_key` is the dedupe key used by the
cooldown logic, including the source's numeric severity bucketing. -/
structure Alert where
  type : AlertType
  timeframe : ATf
  priority : Priority
  alert_key : String
deriving DecidableEq, Repr

/-- One valid per-timeframe entry of `analyze_volume_oi`'s result dict, as read
by the confluence engine (`commentary`/timestamps and the unused
`volume_trend`/`oi_change_10p`/`oi_trend` fields are omitted). -/
structure VolumeEntry where
  current_volume : ℚ
  volume_ma : ℚ
  volume_spike_pct : ℚ
  is_volume_spike : Bool
  divergence : Option Divergence
  current_oi : Option ℚ
  oi_change_1p : ℚ
  oi_change_5p : ℚ
deriving DecidableEq, Repr

/-- A per-timeframe entry of the volume/OI result dict. -/
inductive VolumeResult
  | ok (e : VolumeEntry)
  | error
deriving DecidableEq, Repr

/-- The volume/OI result dict, one entry per timeframe. -/
structure VolumeData where
  m15 : VolumeResult
  h1 : VolumeResult
  h4 : VolumeResult
  d1 : VolumeResult
deriving DecidableEq, Repr

/-- Look up a timeframe's entry. -/
def VolumeData.get (v : VolumeData) : Tf → VolumeResult
  | .m15 => v.m15
  | .h1 => v.h1
  | .h4 => v.h4
  | .d1 => v.d1

/-- `self.volume_alert_config`: per-timeframe `(spike_threshold, low_threshold)`. -/
def volume_alert_config : Tf → ℚ × ℚ
  | .m15 => (100, -80)
  | .h1 => (150, -70)
  | .h4 => (200, -85)
  | .d1 => (100, -60)

/-- `self.oi_alert_config["change_threshold"]`. -/
def oi_change_threshold : ℚ := 25

/-- `self.oi_alert_config["surge_threshold"]`. -/
def oi_surge_threshold : ℚ := 50

/-- `self.context_requirements["min_price_change"]`. -/
def min_price_change : ℚ := 2

/-- `self.context_requirements["min_volume_for_oi"]`. -/
def min_volume_for_oi : ℚ := 75

/-- `self.context_requirements["ema_confluence_min"]`. -/
def ema_confluence_min : ℚ := 3 / 2

/-- `self.alert_cooldown` (seconds). -/
def alert_cooldown : ℚ := 300

/-- The derived price context of `check_price_context`. -/
structure PriceContext where
  significant_move : Bool
  price_change_1h : ℚ
  trend_strength : String
  above_ema_count : ℕ
deriving DecidableEq, Repr

/-- Number of valid EMA entries with `above_ema` true (the loop over
`ema_data.items()` in `check_price_context`). -/
def above_ema_count (ema : EmaResults) : ℕ :=
  (tfOrder.filter fun tf =>
    match ema.get tf with
    | .ok s => s.above_ema
    | .error => false).length

/-- `ConfluenceAlertEngine.check_price_context`. The `current_price` argument
of the source is unused by its body and omitted here. -/
def check_price_context (ema : EmaResults) : PriceContext :=
  let base : Bool × ℚ × String :=
    match ema.h1 with
    | .ok s =>
      let ema_pct := |s.percentage_diff|
      if ema_pct ≥ min_price_change then
        (true, ema_pct, if ema_pct ≥ 3 then "strong" else "moderate")
      else (false, ema_pct, "weak")
    | .error => (false, 0, "weak")
  ⟨base.1, base.2.1, base.2.2, above_ema_count ema⟩

/-- The volume alerts of one timeframe's entry in `check_volume_alerts`. -/
def volume_alerts_for (tf : Tf) : VolumeResult → List Alert
  | .error => []
  | .ok d =>
    let spike_threshold := (volume_alert_config tf).1
    let low_threshold := (volume_alert_config tf).2
    if d.volume_spike_pct ≥ spike_threshold then
      [⟨AlertType.volume_spike, ATf.tf tf,
        (if d.volume_spike_pct ≥ spike_threshold * 2 then Priority.critical
         else Priority.high),
        "volume_spike_" ++ tfStr tf ++ "_" ++
          toString (pyTrunc (d.volume_spike_pct / 20) * 20)⟩]
    else if d.volume_spike_pct ≤ low_threshold then
      [⟨AlertType.volume_low, ATf.tf tf, Priority.medium,
        "volume_low_" ++ tfStr tf ++ "_" ++
          toString (pyTrunc (|d.volume_spike_pct| / 20) * 20)⟩]
    else []

/-- `ConfluenceAlertEngine.check_volume_alerts`. -/
def check_volume_alerts (vol : VolumeData) : List Alert :=
  tfOrder.flatMap fun tf => volume_alerts_for tf (vol.get tf)

/-- The OI alerts of one timeframe's entry in `check_oi_alerts` (after the
`significant_move` gate): skipped without volume confirmation
(`volume_spike_pct < min_volume_for_oi`); otherwise an `oi_change` alert when
`|oi_change_1p| ≥ 25` and an `oi_surge` alert when `|oi_change_5p| ≥ 50`. -/
def oi_alerts_for (tf : Tf) : VolumeResult → List Alert
  | .error => []
  | .ok d =>
    if d.volume_spike_pct < min_volume_for_oi then []
    else
      (if |d.oi_change_1p| ≥ oi_change_threshold then
        [⟨AlertType.oi_change, ATf.tf tf, Priority.critical,
          "oi_change_" ++ tfStr tf ++ "_" ++
            toString (pyTrunc (|d.oi_change_1p| / 15) * 15)⟩]
       else []) ++
      (if |d.oi_change_5p| ≥ oi_surge_threshold then
        [⟨AlertType.oi_surge, ATf.tf tf, Priority.critical,
          "oi_surge_" ++ tfStr tf ++ "_" ++
            toString (pyTrunc (|d.oi_change_5p| / 25) * 25)⟩]
       else [])

/-- `ConfluenceAlertEngine.check_oi_alerts`. -/
def check_oi_alerts (vol : VolumeData) (price_context : PriceContext) : List Alert :=
  if price_context.significant_move then
    tfOrder.flatMap fun tf => oi_alerts_for tf (vol.get tf)
  else []

/-- The EMA+volume confluence alerts of one timeframe in
`check_ema_confluence_alerts`. -/
def ema_confluence_for (tf : Tf) (e : EmaResult) (v : VolumeResult)
    (price_context : PriceContext) : List Alert :=
  match e, v with
  | .ok ema_info, .ok vol_info =>
    let above_ema := ema_info.above_ema
    let ema_pct := ema_info.percentage_diff
    let volume_spike := vol_info.is_volume_spike
    let volume_pct := vol_info.volume_spike_pct
    if above_ema ∧ volume_spike ∧ ema_pct > ema_confluence_min ∧
        volume_pct > 100 ∧ price_context.significant_move then
      [⟨AlertType.bullish_confluence, ATf.tf tf,
        (if volume_pct > 200 then Priority.critical else Priority.high),
        "bullish_confluence_" ++ tfStr tf⟩]
    else if (!above_ema) ∧ volume_spike ∧ |ema_pct| > ema_confluence_min ∧
        volume_pct > 100 ∧ price_context.significant_move then
      [⟨AlertType.bearish_confluence, ATf.tf tf,
        (if volume_pct > 200 then Priority.critical else Priority.high),
        "bearish_confluence_" ++ tfStr tf⟩]
    else []
  | _, _ => []

/-- `ConfluenceAlertEngine.check_ema_confluence_alerts` (the source's unused
`current_price` argument is omitted). -/
def check_ema_confluence_alerts (ema : EmaResults) (vol : VolumeData)
    (price_context : PriceContext) : List Alert :=
  tfOrder.flatMap fun tf => ema_confluence_for tf (ema.get tf) (vol.get tf) price_context

/-- The triple-confluence alerts of one timeframe in
`check_triple_confluence_alerts`. -/
def triple_confluence_for (tf : Tf) (e : EmaResult) (v : VolumeResult) : List Alert :=
  match e, v with
  | .ok ema_info, .ok vol_info =>
    let above_ema := ema_info.above_ema
    let ema_pct := ema_info.percentage_diff
    let volume_spike := vol_info.is_volume_spike
    let volume_pct := vol_info.volume_spike_pct
    let oi_change := vol_info.oi_change_1p
    if above_ema ∧ volume_spike ∧ oi_change > 15 ∧ ema_pct > 2 ∧ volume_pct > 150 then
      [⟨AlertType.triple_bullish_confluence, ATf.tf tf, Priority.critical,
        "triple_bullish_" ++ tfStr tf⟩]
    else if (!above_ema) ∧ volume_spike ∧ oi_change > 15 ∧ |ema_pct| > 2 ∧
        volume_pct > 150 then
      [⟨AlertType.triple_bearish_confluence, ATf.tf tf, Priority.critical,
        "triple_bearish_" ++ tfStr tf⟩]
    else []
  | _, _ => []

/-- `ConfluenceAlertEngine.check_triple_confluence_alerts`, over the higher
timeframes `["1h", "4h", "1d"]` only. -/
def check_triple_confluence_alerts (ema : EmaResults) (vol : VolumeData) : List Alert :=
  [Tf.h1, Tf.h4, Tf.d1].flatMap fun tf => triple_confluence_for tf (ema.get tf) (vol.get tf)

/-- The divergence alerts of one timeframe's entry in `check_divergence_alerts`. -/
def divergence_alerts_for (tf : Tf) : VolumeResult → List Alert
  | .error => []
  | .ok d =>
    match d.divergence with
    | some Divergence.bearish_divergence =>
      [⟨AlertType.bearish_divergence, ATf.tf tf, Priority.medium,
        "bearish_div_" ++ tfStr tf⟩]
    | some Divergence.potential_reversal =>
      [⟨AlertType.potential_reversal, ATf.tf tf, Priority.high,
        "reversal_" ++ tfStr tf⟩]
    | _ => []

/-- `ConfluenceAlertEngine.check_divergence_alerts`. -/
def check_divergence_alerts (vol : VolumeData) : List Alert :=
  tfOrder.flatMap fun tf => divergence_alerts_for tf (vol.get tf)

/-- Indicator: this timeframe counts towards `valid_timeframes` in
`check_multi_timeframe_alerts` (valid in both engines' data). -/
def tf_valid (ema : EmaResults) (vol : VolumeData) (tf : Tf) : ℕ :=
  match ema.get tf, vol.get tf with
  | .ok _, .ok _ => 1
  | _, _ => 0

/-- Indicator: this timeframe counts towards `bullish_ema_count`. -/
def tf_bullish (ema : EmaResults) (vol : VolumeData) (tf : Tf) : ℕ :=
  match ema.get tf, vol.get tf with
  | .ok e, .ok _ => if e.above_ema then 1 else 0
  | _, _ => 0

/-- Indicator: this timeframe counts towards `bearish_ema_count`. -/
def tf_bearish (ema : EmaResults) (vol : VolumeData) (tf : Tf) : ℕ :=
  match ema.get tf, vol.get tf with
  | .ok e, .ok _ => if e.above_ema then 0 else 1
  | _, _ => 0

/-- Indicator: this timeframe counts towards `volume_spike_count`. -/
def tf_spiking (ema : EmaResults) (vol : VolumeData) (tf : Tf) : ℕ :=
  match ema.get tf, vol.get tf with
  | .ok _, .ok v => if v.is_volume_spike then 1 else 0
  | _, _ => 0

/-- `valid_timeframes` of `check_multi_timeframe_alerts`. -/
def valid_timeframes (ema : EmaResults) (vol : VolumeData) : ℕ :=
  (tfOrder.map (tf_valid ema vol)).sum

/-- `bullish_ema_count` of `check_multi_timeframe_alerts`. -/
def bullish_ema_count (ema : EmaResults) (vol : VolumeData) : ℕ :=
  (tfOrder.map (tf_bullish ema vol)).sum

/-- `bearish_ema_count` of `check_multi_timeframe_alerts`. -/
def bearish_ema_count (ema : EmaResults) (vol : VolumeData) : ℕ :=
  (tfOrder.map (tf_bearish ema vol)).sum

/-- `volume_spike_count` of `check_multi_timeframe_alerts`. -/
def volume_spike_count (ema : EmaResults) (vol : VolumeData) : ℕ :=
  (tfOrder.map (tf_spiking ema vol)).sum

/-- `ConfluenceAlertEngine.check_multi_timeframe_alerts`. -/
def check_multi_timeframe_alerts (ema : EmaResults) (vol : VolumeData) : List Alert :=
  if valid_timeframes ema vol ≥ 3 then
    if bullish_ema_count ema vol ≥ 3 ∧ volume_spike_count ema vol ≥ 2 then
      [⟨AlertType.multi_tf_bullish, ATf.multi, Priority.critical, "multi_tf_bullish"⟩]
    else if bearish_ema_count ema vol ≥ 3 ∧ volume_spike_count ema vol ≥ 2 then
      [⟨AlertType.multi_tf_bearish, ATf.multi, Priority.critical, "multi_tf_bearish"⟩]
    else []
  else []

/-- The priority order used by `all_alerts.sort(key=...)`. -/
def prioLe (a b : Alert) : Prop := prioNum a.priority ≤ prioNum b.priority

instance : DecidableRel prioLe := fun _ _ => Nat.decLe _ _

instance : IsTotal Alert prioLe := ⟨fun _ _ => Nat.le_total _ _⟩

instance : IsTrans Alert prioLe := ⟨fun _ _ _ => Nat.le_trans⟩

/-- The in-place `all_alerts.sort(key=lambda x: priority_order.get(...))`.
Python's `list.sort` is guaranteed stable; it is modelled as insertion sort,
proved below to be sorted and stable for this key. -/
def sortAlerts (l : List Alert) : List Alert := List.insertionSort prioLe l

/-- The concatenation of all rule outputs of `run_confluence_analysis`, in
source order, before sorting: volume alerts, OI alerts (gated inside on
`significant_move`), EMA confluence, triple confluence (gated at the call on
`significant_move`), divergence, multi-timeframe (gated at the call on
`above_ema_count >= 3`). -/
def all_alerts_raw (ema : EmaResults) (vol : VolumeData) : List Alert :=
  let price_context := check_price_context ema
  check_volume_alerts vol ++
  check_oi_alerts vol price_context ++
  check_ema_confluence_alerts ema vol price_context ++
  (if price_context.significant_move then check_triple_confluence_alerts ema vol
   else []) ++
  check_divergence_alerts vol ++
  (if price_context.above_ema_count ≥ 3 then check_multi_timeframe_alerts ema vol
   else [])

/-- The sorted alert list returned by `run_confluence_analysis`. -/
def generate_alerts (ema : EmaResults) (vol : VolumeData) : List Alert :=
  sortAlerts (all_alerts_raw ema vol)

/-! ### Cooldown state and notification dispatch -/

/-- `self.last_alerts`: dedupe_key → last-sent timestamp, as an association list. -/
def CooldownMap := List (String × ℚ)

/-- Dictionary lookup. -/
def lookupKey : CooldownMap → String → Option ℚ
  | [], _ => none
  | (k, t) :: rest, key => if k = key then some t else lookupKey rest key

/-- Dictionary update `self.last_alerts[alert_key] = current_time`. -/
def setKey : CooldownMap → String → ℚ → CooldownMap
  | [], key, t => [(key, t)]
  | (k, u) :: rest, key, t =>
    if k = key then (k, t) :: rest else (k, u) :: setKey rest key t

/-- `ConfluenceAlertEngine.should_send_alert`: suppress inside the cooldown
window, otherwise record the send time and allow. -/
def should_send_alert (last_alerts : CooldownMap) (alert_key : String)
    (current_time : ℚ) : Bool × CooldownMap :=
  match lookupKey last_alerts alert_key with
  | some last =>
    if current_time - last < alert_cooldown then (false, last_alerts)
    else (true, setKey last_alerts alert_key current_time)
  | none => (true, setKey last_alerts alert_key current_time)

/-- The notification loop of `run_confluence_analysis`: for each alert of
priority critical or high, in order, attempt dispatch via `send_notification`
subject to `should_send_alert`. Returns `(notifications_sent, keys actually
dispatched in order, final cooldown state)`. The notification sink itself is
modelled as always succeeding. -/
def dispatch_alerts (now : ℚ) : List Alert → CooldownMap → ℕ × List String × CooldownMap
  | [], m => (0, [], m)
  | a :: rest, m =>
    if a.priority = Priority.critical ∨ a.priority = Priority.high then
      let p := should_send_alert m a.alert_key now
      let r := dispatch_alerts now rest p.2
      if p.1 then (r.1 + 1, a.alert_key :: r.2.1, r.2.2) else r
    else dispatch_alerts now rest m

/-- The result of one `run_confluence_analysis` cycle (the fields the claims
are about). -/
structure CycleResult where
  alerts : List Alert
  notifications_sent : ℕ
  sent_keys : List String
  last_alerts : CooldownMap

/-- One evaluation cycle of `ConfluenceAlertEngine.run_confluence_analysis`,
given the two engines' per-timeframe results, the wall-clock time of the
dispatch loop, and the cooldown state carried over from earlier cycles. -/
def run_confluence_analysis (ema : EmaResults) (vol : VolumeData) (now : ℚ)
    (m : CooldownMap) : CycleResult :=
  let alerts := generate_alerts ema vol
  let d := dispatch_alerts now alerts m
  ⟨alerts, d.1, d.2.1, d.2.2⟩

/-! ## Supporting lemmas -/

/-- Unpacking a successful per-timeframe entry of the `analyze_ema` loop body. -/
theorem analyzeStep_ok (cp : Option ℚ) (fetched : Option (List ℚ)) (tf : Tf)
    (s : EmaSignal) (h : (analyzeStep cp fetched tf).2 = EmaResult.ok s) :
    ∃ prices, fetched = some prices ∧ calculate_ema prices tf = some s.ema_200 ∧
      s.percentage_diff = (s.current_price - s.ema_200) / s.ema_200 * 100 ∧
      (s.above_ema = true ↔ s.percentage_diff > 0) := by
  rcases fetched with _ | prices
  · simp [analyzeStep] at h
  · refine ⟨prices, rfl, ?_⟩
    rcases hcp : (match cp with
      | none => prices.getLast?
      | some p => some p) with _ | p
    · simp only [analyzeStep, hcp] at h
      cases h
    · rcases hce : calculate_ema prices tf with _ | e
      · simp only [analyzeStep, hcp, hce] at h
        cases h
      · simp only [analyzeStep, hcp, hce, EmaResult.ok.injEq] at h
        subst h
        refine ⟨rfl, rfl, ?_⟩
        simp

/-- A successful `calculate_ema` value is exactly the specification's
reference EMA. -/
theorem calculate_ema_eq_referenceEMA (prices : List ℚ) (tf : Tf) (e : ℚ)
    (h : calculate_ema prices tf = some e) :
    e = referenceEMA prices (PRODUCTION_CONFIGS tf).sma_period
      (PRODUCTION_CONFIGS tf).ema_period := by
  have hw : 1 ≤ (PRODUCTION_CONFIGS tf).sma_period := by cases tf <;> decide
  simp only [calculate_ema] at h
  split at h
  · cases h
  · simp only [referenceEMA]
    rw [← smoothedSeries_eq_trailingSMA _ hw]
    exact (Option.some.inj h).symm

/-! ## C1 -/

/-- C1: for every fetch environment and every timeframe on which `analyze_ema`
succeeds, the returned signal's `ema_200` equals the specification's reference
EMA (trailing SMA of width `sma_period`, seeded with the mean of the first
`ema_period` smoothed values, folded with multiplier `2/(ema_period+1)`),
`percentage_diff = (current_price - ema_value) / ema_value * 100`, and
`above_ema` holds exactly when `percentage_diff > 0`. -/
theorem analyze_ema_matches_spec (env : EmaFetchEnv) (tf : Tf) (s : EmaSignal)
    (h : (analyze_ema env).get tf = EmaResult.ok s) :
    ∃ prices, env.candles tf = some prices ∧
      s.ema_200 = referenceEMA prices (PRODUCTION_CONFIGS tf).sma_period
        (PRODUCTION_CONFIGS tf).ema_period ∧
      s.percentage_diff = (s.current_price - s.ema_200) / s.ema_200 * 100 ∧
      (s.above_ema = true ↔ s.percentage_diff > 0) := by
  cases tf <;>
    simp only [analyze_ema, EmaResults.get, EmaFetchEnv.candles] at h ⊢ <;>
    obtain ⟨prices, hp, hc, hpd, hab⟩ := analyzeStep_ok _ _ _ _ h <;>
    exact ⟨prices, hp, calculate_ema_eq_referenceEMA _ _ _ hc, hpd, hab⟩

/-- A concrete fetch environment: 200 candles closing at 100 on 15m, ticker 110. -/
def envW1 : EmaFetchEnv :=
  ⟨some 110, some (List.replicate 200 100), none, none, none⟩

set_option maxRecDepth 400000 in
/-- Witness for C1 at `envW1`: the 15m entry succeeds with EMA 100 and +10%. -/
theorem analyze_ema_matches_spec_witness :
    ∃ prices, envW1.candles Tf.m15 = some prices ∧
      (110:ℚ) = referenceEMA prices (PRODUCTION_CONFIGS Tf.m15).sma_period
          (PRODUCTION_CONFIGS Tf.m15).ema_period + 10 ∧
      ((10:ℚ) = ((110:ℚ) - 100) / 100 * 100) :=
  match analyze_ema_matches_spec envW1 Tf.m15 ⟨110, 100, 10, true⟩ (by decide) with
  | ⟨prices, hp, hema, _, _⟩ => ⟨prices, hp, by rw [← hema]; norm_num, by norm_num⟩

/-! ## Sorting lemmas (for C4) -/

/-- Inserting into a list moves the new element past exactly the
strictly-higher-priority elements, so the filter at each priority level either
gains the new element at the front or is unchanged. -/
theorem filter_orderedInsert (p : ℕ) (a : Alert) (l : List Alert) :
    (List.orderedInsert prioLe a l).filter (fun x => decide (prioNum x.priority = p)) =
      if prioNum a.priority = p then
        a :: l.filter (fun x => decide (prioNum x.priority = p))
      else l.filter (fun x => decide (prioNum x.priority = p)) := by
  induction l with
  | nil =>
    simp only [List.orderedInsert, List.filter]
    split <;> rename_i hap
    · simp only [decide_eq_true_eq] at hap
      simp [hap]
    · simp only [decide_eq_false_iff_not] at hap
      simp [hap]
  | cons b bs ih =>
    by_cases hab : prioLe a b
    · rw [List.orderedInsert_of_le prioLe bs hab]
      by_cases hap : prioNum a.priority = p <;> simp [List.filter_cons, hap]
    · have hb : prioNum b.priority < prioNum a.priority := by
        simpa [prioLe, Nat.not_le] using hab
      simp only [List.orderedInsert, if_neg hab]
      by_cases hap : prioNum a.priority = p
      · have hbp : ¬ prioNum b.priority = p := by omega
        simp [List.filter_cons, hap, hbp, ih]
      · by_cases hbp : prioNum b.priority = p <;>
          simp [List.filter_cons, hap, hbp, ih]

/-- The sort is stable: at each priority level, the sorted list's elements are
exactly the raw list's elements in their original relative order. -/
theorem filter_sortAlerts (p : ℕ) (l : List Alert) :
    (sortAlerts l).filter (fun x => decide (prioNum x.priority = p)) =
      l.filter (fun x => decide (prioNum x.priority = p)) := by
  induction l with
  | nil => rfl
  | cons a l ih =>
    simp only [sortAlerts] at ih
    show (List.orderedInsert prioLe a (List.insertionSort prioLe l)).filter _ = _
    rw [filter_orderedInsert]
    by_cases hap : prioNum a.priority = p <;>
      simp [List.filter_cons, hap, ih]

/-! ## C4 -/

/-- C4: every cycle's returned alert list is sorted by priority (critical
before high before medium before low — `prioLe` compares the source's
`priority_order` sort keys), and the sort is stable: at each priority level the
returned list restricts to exactly the rule-emission-order sublist of the raw
merged alert list. -/
theorem alerts_sorted_stable (ema : EmaResults) (vol : VolumeData) (now : ℚ)
    (m : CooldownMap) :
    (run_confluence_analysis ema vol now m).alerts.Sorted prioLe ∧
    ∀ p : ℕ,
      (run_confluence_analysis ema vol now m).alerts.filter
          (fun x => decide (prioNum x.priority = p)) =
        (all_alerts_raw ema vol).filter (fun x => decide (prioNum x.priority = p)) := by
  constructor
  · exact List.sorted_insertionSort prioLe (all_alerts_raw ema vol)
  · intro p
    exact filter_sortAlerts p (all_alerts_raw ema vol)

/-! ## Cooldown-state lemmas (for C2 and C10) -/

/-- Updating a key makes it present with the new timestamp. -/
theorem lookup_setKey_self (m : CooldownMap) (key : String) (t : ℚ) :
    lookupKey (setKey m key t) key = some t := by
  induction m with
  | nil => simp [setKey, lookupKey]
  | cons kv rest ih =>
    obtain ⟨k, u⟩ := kv
    by_cases hk : k = key
    · subst hk
      simp [setKey, lookupKey]
    · simp [setKey, lookupKey, hk, ih]

/-- Updating a key leaves every other key's entry unchanged. -/
theorem lookup_setKey_ne (m : CooldownMap) (key other : String) (t : ℚ)
    (h : other ≠ key) : lookupKey (setKey m key t) other = lookupKey m other := by
  have hno : ¬ key = other := fun hh => h hh.symm
  induction m with
  | nil => simp [setKey, lookupKey, hno]
  | cons kv rest ih =>
    obtain ⟨k, u⟩ := kv
    by_cases hk : k = key
    · subst hk
      simp [setKey, lookupKey, hno]
    · simp only [setKey, if_neg hk, lookupKey]
      by_cases ho : k = other <;> simp [ho, ih]

/-- `should_send_alert` only touches its own key's entry. -/
theorem should_send_alert_preserves (m : CooldownMap) (key other : String)
    (now : ℚ) (h : other ≠ key) :
    lookupKey (should_send_alert m key now).2 other = lookupKey m other := by
  rw [should_send_alert]
  rcases hl : lookupKey m key with _ | t1
  · simpa using lookup_setKey_ne m key other now h
  · by_cases hwin : now - t1 < alert_cooldown
    · simp [hwin]
    · simpa [hwin] using lookup_setKey_ne m key other now h

/-- Unfolding `dispatch_alerts` on an eligible alert that is sent. -/
theorem dispatch_cons_sent (now : ℚ) (a : Alert) (rest : List Alert)
    (m : CooldownMap)
    (helig : a.priority = Priority.critical ∨ a.priority = Priority.high)
    (hsent : (should_send_alert m a.alert_key now).1 = true) :
    dispatch_alerts now (a :: rest) m =
      ((dispatch_alerts now rest (should_send_alert m a.alert_key now).2).1 + 1,
       a.alert_key ::
         (dispatch_alerts now rest (should_send_alert m a.alert_key now).2).2.1,
       (dispatch_alerts now rest (should_send_alert m a.alert_key now).2).2.2) := by
  simp [dispatch_alerts, helig, hsent]

/-- Unfolding `dispatch_alerts` on an eligible alert that is suppressed. -/
theorem dispatch_cons_skip (now : ℚ) (a : Alert) (rest : List Alert)
    (m : CooldownMap)
    (helig : a.priority = Priority.critical ∨ a.priority = Priority.high)
    (hsent : ¬ (should_send_alert m a.alert_key now).1 = true) :
    dispatch_alerts now (a :: rest) m =
      dispatch_alerts now rest (should_send_alert m a.alert_key now).2 := by
  simp [dispatch_alerts, helig, hsent]

/-- Unfolding `dispatch_alerts` on an ineligible (medium/low) alert. -/
theorem dispatch_cons_inelig (now : ℚ) (a : Alert) (rest : List Alert)
    (m : CooldownMap)
    (helig : ¬ (a.priority = Priority.critical ∨ a.priority = Priority.high)) :
    dispatch_alerts now (a :: rest) m = dispatch_alerts now rest m := by
  simp [dispatch_alerts, helig]

/-- While a key is inside the cooldown window, a whole dispatch pass sends
nothing for it and leaves its entry unchanged. -/
theorem dispatch_suppressed (now : ℚ) (A : List Alert) (k : String) :
    ∀ m : CooldownMap, (∀ t0, lookupKey m k = some t0 → now - t0 < alert_cooldown) →
    (∃ t0, lookupKey m k = some t0) →
    (dispatch_alerts now A m).2.1.count k = 0 ∧
      lookupKey (dispatch_alerts now A m).2.2 k = lookupKey m k := by
  induction A with
  | nil =>
    intro m _ _
    simp [dispatch_alerts]
  | cons a rest ih =>
    intro m hhot hex
    obtain ⟨t0, ht0⟩ := hex
    by_cases helig : a.priority = Priority.critical ∨ a.priority = Priority.high
    · by_cases hkey : a.alert_key = k
      · have hss : should_send_alert m a.alert_key now = (false, m) := by
          simp only [should_send_alert, hkey, ht0]
          rw [if_pos (hhot t0 ht0)]
        rw [dispatch_cons_skip now a rest m helig (by simp [hss]), hss]
        exact ih m hhot ⟨t0, ht0⟩
      · have hkey' : ¬ k = a.alert_key := fun hh => hkey hh.symm
        have hpres : lookupKey (should_send_alert m a.alert_key now).2 k =
            lookupKey m k :=
          should_send_alert_preserves m a.alert_key k now (Ne.symm hkey)
        obtain ⟨hc, hl2⟩ := ih (should_send_alert m a.alert_key now).2
          (fun t0 hh => hhot t0 (hpres ▸ hh)) ⟨t0, hpres ▸ ht0⟩
        by_cases hsent : (should_send_alert m a.alert_key now).1 = true
        · rw [dispatch_cons_sent now a rest m helig hsent]
          refine ⟨?_, hl2.trans hpres⟩
          simpa [List.count_cons, hkey'] using hc
        · rw [dispatch_cons_skip now a rest m helig hsent]
          exact ⟨hc, hl2.trans hpres⟩
    · rw [dispatch_cons_inelig now a rest m helig]
      exact ih m hhot ⟨t0, ht0⟩

/-- One dispatch pass sends a given key at most once; if it does not send it,
the key's entry is unchanged, and if it sends it, the entry becomes `now`. -/
theorem dispatch_count (now : ℚ) (A : List Alert) (k : String) :
    ∀ m : CooldownMap,
    (dispatch_alerts now A m).2.1.count k ≤ 1 ∧
    ((dispatch_alerts now A m).2.1.count k = 0 →
      lookupKey (dispatch_alerts now A m).2.2 k = lookupKey m k) ∧
    ((dispatch_alerts now A m).2.1.count k = 1 →
      lookupKey (dispatch_alerts now A m).2.2 k = some now) := by
  induction A with
  | nil =>
    intro m
    simp [dispatch_alerts]
  | cons a rest ih =>
    intro m
    by_cases helig : a.priority = Priority.critical ∨ a.priority = Priority.high
    · by_cases hkey : a.alert_key = k
      · subst hkey
        have hafter : ∀ m' : CooldownMap,
            lookupKey m' a.alert_key = some now →
            (dispatch_alerts now rest m').2.1.count a.alert_key = 0 ∧
              lookupKey (dispatch_alerts now rest m').2.2 a.alert_key = some now := by
          intro m' hm'
          have hsup := dispatch_suppressed now rest a.alert_key m'
            (fun t0 hh => by
              rw [hm'] at hh
              cases hh
              norm_num [alert_cooldown]) ⟨now, hm'⟩
          exact ⟨hsup.1, hsup.2.trans hm'⟩
        rcases hl : lookupKey m a.alert_key with _ | t1
        · have hss : should_send_alert m a.alert_key now =
              (true, setKey m a.alert_key now) := by
            simp only [should_send_alert, hl]
          rw [dispatch_cons_sent now a rest m helig (by simp [hss]), hss]
          obtain ⟨hc0, hl0⟩ := hafter _ (lookup_setKey_self m a.alert_key now)
          have hcc : List.count a.alert_key
              (a.alert_key ::
                (dispatch_alerts now rest (setKey m a.alert_key now)).2.1) = 1 := by
            simp [List.count_cons, hc0]
          refine ⟨by rw [hcc], fun hh => ?_, fun _ => hl0⟩
          rw [hcc] at hh
          exact absurd hh (by decide)
        · by_cases hwin : now - t1 < alert_cooldown
          · have hss : should_send_alert m a.alert_key now = (false, m) := by
              simp only [should_send_alert, hl]
              rw [if_pos hwin]
            rw [dispatch_cons_skip now a rest m helig (by simp [hss]), hss]
            obtain ⟨hc0, hl0⟩ := dispatch_suppressed now rest a.alert_key m
              (fun t0 hh => by
                rw [hl] at hh
                cases hh
                exact hwin) ⟨t1, hl⟩
            refine ⟨by rw [hc0]; decide, fun _ => hl0.trans hl, fun hh => ?_⟩
            rw [hc0] at hh
            exact absurd hh (by decide)
          · have hss : should_send_alert m a.alert_key now =
                (true, setKey m a.alert_key now) := by
              simp only [should_send_alert, hl]
              rw [if_neg hwin]
            rw [dispatch_cons_sent now a rest m helig (by simp [hss]), hss]
            obtain ⟨hc0, hl0⟩ := hafter _ (lookup_setKey_self m a.alert_key now)
            have hcc : List.count a.alert_key
                (a.alert_key ::
                  (dispatch_alerts now rest (setKey m a.alert_key now)).2.1) = 1 := by
              simp [List.count_cons, hc0]
            refine ⟨by rw [hcc], fun hh => ?_, fun _ => hl0⟩
            rw [hcc] at hh
            exact absurd hh (by decide)
      · have hkey' : ¬ k = a.alert_key := fun hh => hkey hh.symm
        have hpres : lookupKey (should_send_alert m a.alert_key now).2 k =
            lookupKey m k :=
          should_send_alert_preserves m a.alert_key k now (Ne.symm hkey)
        obtain ⟨hc, h0, h1⟩ := ih (should_send_alert m a.alert_key now).2
        by_cases hsent : (should_send_alert m a.alert_key now).1 = true
        · rw [dispatch_cons_sent now a rest m helig hsent]
          have hcc : List.count k
              (a.alert_key ::
                (dispatch_alerts now rest (should_send_alert m a.alert_key now).2).2.1) =
              List.count k
                (dispatch_alerts now rest (should_send_alert m a.alert_key now).2).2.1 := by
            simp [List.count_cons, hkey']
          refine ⟨by rw [hcc]; exact hc, fun hh => ?_, fun hh => ?_⟩
          · rw [hcc] at hh
            exact (h0 hh).trans hpres
          · rw [hcc] at hh
            exact h1 hh
        · rw [dispatch_cons_skip now a rest m helig hsent]
          exact ⟨hc, fun hh => (h0 hh).trans hpres, h1⟩
    · rw [dispatch_cons_inelig now a rest m helig]
      exact ih m

/-! ## C2 -/

/-- C2: starting from cooldown state with no entry for dedupe key `k`, across
two evaluation cycles whose second dispatch happens less than the cooldown
window after the first, at most one notification for `k` is dispatched in
total; the returned alert list of the second cycle is the full generated batch
(suppression never removes an alert from it); and once the window has expired
(`now - last ≥ 300`), `should_send_alert` allows a key to dispatch again. -/
theorem cooldown_suppresses_repeat_dispatch (ema1 : EmaResults) (vol1 : VolumeData)
    (ema2 : EmaResults) (vol2 : VolumeData) (m0 : CooldownMap) (k : String)
    (t1 t2 : ℚ) (hwin : t2 - t1 < alert_cooldown) :
    (run_confluence_analysis ema1 vol1 t1 m0).sent_keys.count k +
      (run_confluence_analysis ema2 vol2 t2
        (run_confluence_analysis ema1 vol1 t1 m0).last_alerts).sent_keys.count k ≤ 1 ∧
    (run_confluence_analysis ema2 vol2 t2
      (run_confluence_analysis ema1 vol1 t1 m0).last_alerts).alerts =
      generate_alerts ema2 vol2 ∧
    (∀ (m : CooldownMap) (t now : ℚ) (key : String), lookupKey m key = some t →
      alert_cooldown ≤ now - t → (should_send_alert m key now).1 = true) := by
  have hsk1 : (run_confluence_analysis ema1 vol1 t1 m0).sent_keys =
      (dispatch_alerts t1 (generate_alerts ema1 vol1) m0).2.1 := rfl
  have hla1 : (run_confluence_analysis ema1 vol1 t1 m0).last_alerts =
      (dispatch_alerts t1 (generate_alerts ema1 vol1) m0).2.2 := rfl
  refine ⟨?_, rfl, ?_⟩
  · rw [hsk1, hla1]
    have hsk2 : (run_confluence_analysis ema2 vol2 t2
        (dispatch_alerts t1 (generate_alerts ema1 vol1) m0).2.2).sent_keys =
        (dispatch_alerts t2 (generate_alerts ema2 vol2)
          (dispatch_alerts t1 (generate_alerts ema1 vol1) m0).2.2).2.1 := rfl
    rw [hsk2]
    obtain ⟨hle, h0, hone⟩ := dispatch_count t1 (generate_alerts ema1 vol1) k m0
    rcases Nat.le_one_iff_eq_zero_or_eq_one.mp hle with hz | ho
    · have h2le := (dispatch_count t2 (generate_alerts ema2 vol2) k
        (dispatch_alerts t1 (generate_alerts ema1 vol1) m0).2.2).1
      omega
    · have hm1 := hone ho
      have hsup := dispatch_suppressed t2 (generate_alerts ema2 vol2) k
        (dispatch_alerts t1 (generate_alerts ema1 vol1) m0).2.2
        (fun t0 hh => by
          rw [hm1] at hh
          cases hh
          exact hwin) ⟨t1, hm1⟩
      have hc2 := hsup.1
      omega
  · intro m t now key hlk hexp
    simp only [should_send_alert, hlk]
    rw [if_neg (not_lt.mpr hexp)]

/-- An EMA result map where every timeframe errored. -/
def emaErr : EmaResults := ⟨EmaResult.error, EmaResult.error, EmaResult.error,
  EmaResult.error⟩

/-- A volume entry with a +300% spike and quiet OI, used as witness input. -/
def volSpikeEntry : VolumeEntry := ⟨1000, 250, 300, true, none, none, 0, 0⟩

/-- Volume data with the spike on 15m only; other timeframes errored. -/
def volSpike : VolumeData := ⟨VolumeResult.ok volSpikeEntry, VolumeResult.error,
  VolumeResult.error, VolumeResult.error⟩

/-- Witness for C2 with a concrete critical volume-spike alert, cycles at
times 0 and 10 from an empty cooldown state. -/
theorem cooldown_suppresses_repeat_dispatch_witness :
    (run_confluence_analysis emaErr volSpike 0 []).sent_keys.count
        "volume_spike_15m_300" +
      (run_confluence_analysis emaErr volSpike 10
        (run_confluence_analysis emaErr volSpike 0 []).last_alerts).sent_keys.count
        "volume_spike_15m_300" ≤ 1 ∧
    (run_confluence_analysis emaErr volSpike 10
      (run_confluence_analysis emaErr volSpike 0 []).last_alerts).alerts =
      generate_alerts emaErr volSpike ∧
    (∀ (m : CooldownMap) (t now : ℚ) (key : String), lookupKey m key = some t →
      alert_cooldown ≤ now - t → (should_send_alert m key now).1 = true) :=
  cooldown_suppresses_repeat_dispatch emaErr volSpike emaErr volSpike []
    "volume_spike_15m_300" 0 10 (by norm_num [alert_cooldown])

/-! ## Per-rule alert-kind lemmas -/

/-- Volume-rule alerts are volume_spike or volume_low. -/
theorem volume_alerts_type {a : Alert} {vol : VolumeData}
    (h : a ∈ check_volume_alerts vol) :
    a.type = AlertType.volume_spike ∨ a.type = AlertType.volume_low := by
  simp only [check_volume_alerts, List.mem_flatMap] at h
  obtain ⟨tf, _, ha⟩ := h
  rcases hr : vol.get tf with e | _
  · rw [hr] at ha
    simp only [volume_alerts_for] at ha
    split at ha
    · simp only [List.mem_singleton] at ha
      subst ha
      left
      rfl
    · split at ha
      · simp only [List.mem_singleton] at ha
        subst ha
        right
        rfl
      · cases ha
  · rw [hr] at ha
    cases ha

/-- OI-rule alerts exist only under `significant_move`, and each certifies the
same timeframe's volume confirmation `volume_spike_pct ≥ 75`. -/
theorem oi_alerts_shape {a : Alert} {vol : VolumeData} {ctx : PriceContext}
    (h : a ∈ check_oi_alerts vol ctx) :
    ctx.significant_move = true ∧
    (a.type = AlertType.oi_change ∨ a.type = AlertType.oi_surge) ∧
    ∃ tf d, a.timeframe = ATf.tf tf ∧ vol.get tf = VolumeResult.ok d ∧
      min_volume_for_oi ≤ d.volume_spike_pct := by
  rw [check_oi_alerts] at h
  split at h
  case isFalse => cases h
  case isTrue hsig =>
  refine ⟨hsig, ?_⟩
  simp only [List.mem_flatMap] at h
  obtain ⟨tf, _, ha⟩ := h
  rcases hr : vol.get tf with e | _
  · rw [hr] at ha
    simp only [oi_alerts_for] at ha
    split at ha
    · cases ha
    case isFalse hpct =>
    rw [List.mem_append] at ha
    rcases ha with ha | ha
    · split at ha
      · simp only [List.mem_singleton] at ha
        subst ha
        exact ⟨Or.inl rfl, tf, e, rfl, hr, le_of_not_lt hpct⟩
      · cases ha
    · split at ha
      · simp only [List.mem_singleton] at ha
        subst ha
        exact ⟨Or.inr rfl, tf, e, rfl, hr, le_of_not_lt hpct⟩
      · cases ha
  · rw [hr] at ha
    cases ha

/-- EMA-confluence-rule alerts are bullish or bearish confluence. -/
theorem ema_confluence_type {a : Alert} {ema : EmaResults} {vol : VolumeData}
    {ctx : PriceContext} (h : a ∈ check_ema_confluence_alerts ema vol ctx) :
    a.type = AlertType.bullish_confluence ∨ a.type = AlertType.bearish_confluence := by
  simp only [check_ema_confluence_alerts, List.mem_flatMap] at h
  obtain ⟨tf, _, ha⟩ := h
  rcases he : ema.get tf with e | _ <;> rcases hv : vol.get tf with v | _ <;>
    rw [he, hv] at ha <;> simp only [ema_confluence_for] at ha
  · split at ha
    · simp only [List.mem_singleton] at ha
      subst ha
      left
      rfl
    · split at ha
      · simp only [List.mem_singleton] at ha
        subst ha
        right
        rfl
      · cases ha
  · cases ha
  · cases ha
  · cases ha

/-- Triple-confluence-rule alerts are triple bullish or triple bearish. -/
theorem triple_confluence_type {a : Alert} {ema : EmaResults} {vol : VolumeData}
    (h : a ∈ check_triple_confluence_alerts ema vol) :
    a.type = AlertType.triple_bullish_confluence ∨
      a.type = AlertType.triple_bearish_confluence := by
  simp only [check_triple_confluence_alerts, List.mem_flatMap] at h
  obtain ⟨tf, _, ha⟩ := h
  rcases he : ema.get tf with e | _ <;> rcases hv : vol.get tf with v | _ <;>
    rw [he, hv] at ha <;> simp only [triple_confluence_for] at ha
  · split at ha
    · simp only [List.mem_singleton] at ha
      subst ha
      left
      rfl
    · split at ha
      · simp only [List.mem_singleton] at ha
        subst ha
        right
        rfl
      · cases ha
  · cases ha
  · cases ha
  · cases ha

/-- Divergence-rule alerts are bearish_divergence (medium) or
potential_reversal (high). -/
theorem divergence_alerts_shape {a : Alert} {vol : VolumeData}
    (h : a ∈ check_divergence_alerts vol) :
    (a.type = AlertType.bearish_divergence ∧ a.priority = Priority.medium) ∨
      (a.type = AlertType.potential_reversal ∧ a.priority = Priority.high) := by
  simp only [check_divergence_alerts, List.mem_flatMap] at h
  obtain ⟨tf, _, ha⟩ := h
  rcases hr : vol.get tf with e | _
  · rw [hr] at ha
    simp only [divergence_alerts_for] at ha
    rcases hd : e.divergence with _ | d
    · rw [hd] at ha
      cases ha
    · rw [hd] at ha
      cases d
      · simp only [List.mem_singleton] at ha
        subst ha
        exact Or.inl ⟨rfl, rfl⟩
      · cases ha
      · cases ha
      · simp only [List.mem_singleton] at ha
        subst ha
        exact Or.inr ⟨rfl, rfl⟩
  · rw [hr] at ha
    cases ha

/-- Multi-timeframe-rule alerts are the two alignment alerts. -/
theorem multi_tf_type {a : Alert} {ema : EmaResults} {vol : VolumeData}
    (h : a ∈ check_multi_timeframe_alerts ema vol) :
    a.type = AlertType.multi_tf_bullish ∨ a.type = AlertType.multi_tf_bearish := by
  rw [check_multi_timeframe_alerts] at h
  split at h
  · split at h
    · simp only [List.mem_singleton] at h
      subst h
      left
      rfl
    · split at h
      · simp only [List.mem_singleton] at h
        subst h
        right
        rfl
      · cases h
  · cases h

/-- Membership in the returned batch is membership in the raw merged list. -/
theorem mem_generate_alerts {a : Alert} {ema : EmaResults} {vol : VolumeData} :
    a ∈ generate_alerts ema vol ↔ a ∈ all_alerts_raw ema vol :=
  List.mem_insertionSort prioLe

/-! ## C3 -/

/-- C3: no `oi_change`/`oi_surge` alert is ever in a cycle's batch unless the
derived `significant_move` flag is true, and any such alert's timeframe has a
valid volume entry with `volume_spike_pct ≥ 75` (the `min_volume_for_oi`
confluence filter). -/
theorem oi_alerts_gated (ema : EmaResults) (vol : VolumeData) (a : Alert)
    (ha : a ∈ generate_alerts ema vol)
    (hty : a.type = AlertType.oi_change ∨ a.type = AlertType.oi_surge) :
    (check_price_context ema).significant_move = true ∧
    ∃ tf d, a.timeframe = ATf.tf tf ∧ vol.get tf = VolumeResult.ok d ∧
      min_volume_for_oi ≤ d.volume_spike_pct := by
  rw [mem_generate_alerts] at ha
  simp only [all_alerts_raw, List.mem_append] at ha
  rcases ha with ((((hv | ho) | he) | ht) | hd) | hm
  · rcases volume_alerts_type hv with h | h <;> rw [h] at hty <;>
      rcases hty with h2 | h2 <;> cases h2
  · obtain ⟨hsig, _, rest⟩ := oi_alerts_shape ho
    exact ⟨hsig, rest⟩
  · rcases ema_confluence_type he with h | h <;> rw [h] at hty <;>
      rcases hty with h2 | h2 <;> cases h2
  · split at ht
    · rcases triple_confluence_type ht with h | h <;> rw [h] at hty <;>
        rcases hty with h2 | h2 <;> cases h2
    · cases ht
  · rcases divergence_alerts_shape hd with ⟨h, _⟩ | ⟨h, _⟩ <;> rw [h] at hty <;>
      rcases hty with h2 | h2 <;> cases h2
  · split at hm
    · rcases multi_tf_type hm with h | h <;> rw [h] at hty <;>
        rcases hty with h2 | h2 <;> cases h2
    · cases hm

/-- EMA results with a significant 1h move (+5% above EMA), used as witness
input. -/
def emaSig : EmaResults := ⟨EmaResult.error, EmaResult.ok ⟨105, 100, 5, true⟩,
  EmaResult.error, EmaResult.error⟩

/-- A 1h volume entry with +80% volume and +30% 1-period OI change. -/
def volOiEntry : VolumeEntry := ⟨500, 278, 80, true, none, some 10000, 30, 0⟩

/-- Volume data with the OI move on 1h only. -/
def volOi : VolumeData := ⟨VolumeResult.error, VolumeResult.ok volOiEntry,
  VolumeResult.error, VolumeResult.error⟩

/-- Witness for C3: a concrete cycle whose batch contains an `oi_change`
alert, to which the theorem applies. -/
theorem oi_alerts_gated_witness :
    (check_price_context emaSig).significant_move = true ∧
    ∃ tf d, (ATf.tf Tf.h1 : ATf) = ATf.tf tf ∧
      volOi.get tf = VolumeResult.ok d ∧
      min_volume_for_oi ≤ d.volume_spike_pct :=
  oi_alerts_gated emaSig volOi
    ⟨AlertType.oi_change, ATf.tf Tf.h1, Priority.critical, "oi_change_1h_30"⟩
    (by decide) (Or.inl rfl)

/-! ## C5 -/

/-- The field equations of a successful `calculate_volume_metrics`. -/
theorem calculate_volume_metrics_fields (volumes : List ℚ) (cfg : VolumeConfig)
    (m : VolumeMetrics) (h : calculate_volume_metrics volumes cfg = some m) :
    m.volume_spike_pct = (m.current_volume - m.volume_ma) / m.volume_ma * 100 ∧
    (m.is_volume_spike = true ↔ cfg.spike_threshold ≤ m.volume_spike_pct) := by
  rw [calculate_volume_metrics] at h
  split at h
  · cases h
  · cases Option.some.inj h
    exact ⟨rfl, by simp [ge_iff_le]⟩

/-- C5: with at least `ma_period` volume values, `calculate_volume_metrics`
succeeds; its `volume_spike_pct` equals
`(current_volume - volume_ma) / volume_ma * 100`; `is_volume_spike` holds
exactly when the spike percentage reaches the timeframe's threshold; and
consequently `is_volume_spike` is monotone in `volume_spike_pct`: a result
with a larger spike percentage on the same timeframe can only gain the flag,
never lose it. -/
theorem volume_metrics_spec (volumes : List ℚ) (tf : Tf)
    (h : (VOLUME_CONFIGS tf).ma_period ≤ volumes.length) :
    ∃ m, calculate_volume_metrics volumes (VOLUME_CONFIGS tf) = some m ∧
      m.volume_spike_pct = (m.current_volume - m.volume_ma) / m.volume_ma * 100 ∧
      (m.is_volume_spike = true ↔
        (VOLUME_CONFIGS tf).spike_threshold ≤ m.volume_spike_pct) ∧
      ∀ (volumes' : List ℚ) (m' : VolumeMetrics),
        calculate_volume_metrics volumes' (VOLUME_CONFIGS tf) = some m' →
        m.volume_spike_pct ≤ m'.volume_spike_pct → m.is_volume_spike = true →
        m'.is_volume_spike = true := by
  obtain ⟨m, hm⟩ : ∃ m, calculate_volume_metrics volumes (VOLUME_CONFIGS tf) =
      some m := by
    rw [calculate_volume_metrics, if_neg (not_lt.mpr h)]
    exact ⟨_, rfl⟩
  obtain ⟨hpct, hiff⟩ := calculate_volume_metrics_fields volumes _ m hm
  refine ⟨m, hm, hpct, hiff, ?_⟩
  intro volumes' m' h' hle hsp
  obtain ⟨_, hiff'⟩ := calculate_volume_metrics_fields volumes' _ m' h'
  exact hiff'.mpr (le_trans (hiff.mp hsp) hle)

/-- Witness for C5 on 20 volume values of 100 for the 1h configuration. -/
theorem volume_metrics_spec_witness :
    ∃ m, calculate_volume_metrics (List.replicate 20 100) (VOLUME_CONFIGS Tf.h1) =
        some m ∧
      m.volume_spike_pct = (m.current_volume - m.volume_ma) / m.volume_ma * 100 ∧
      (m.is_volume_spike = true ↔
        (VOLUME_CONFIGS Tf.h1).spike_threshold ≤ m.volume_spike_pct) ∧
      ∀ (volumes' : List ℚ) (m' : VolumeMetrics),
        calculate_volume_metrics volumes' (VOLUME_CONFIGS Tf.h1) = some m' →
        m.volume_spike_pct ≤ m'.volume_spike_pct → m.is_volume_spike = true →
        m'.is_volume_spike = true :=
  volume_metrics_spec (List.replicate 20 100) Tf.h1 (by simp [VOLUME_CONFIGS])

/-! ## C6 -/

/-- C6 (code bug): when both OI-history endpoints are unavailable but a
current OI snapshot exists, `fetch_historical_oi` does not report OI as
unavailable — it fabricates a 20-element synthetic history derived from the
current OI (here with all random variations zero), contradicting the
specification's requirement to surface "OI unavailable" rather than
synthesize data. -/
theorem fetch_historical_oi_synthesizes :
    fetch_historical_oi none none (some 50000) (List.replicate 20 0) =
      List.replicate 20 50000 ∧
    fetch_historical_oi none none (some 50000) (List.replicate 20 0) ≠ [] := by
  constructor <;> decide

/-! ## C7 -/

/-- Insufficient close data makes the loop body record an error entry,
whatever the threaded `current_price` is. -/
theorem analyzeStep_insufficient (cp : Option ℚ) (l : List ℚ) (tf : Tf)
    (h : l.length <
      (PRODUCTION_CONFIGS tf).sma_period + (PRODUCTION_CONFIGS tf).ema_period) :
    (analyzeStep cp (some l) tf).2 = EmaResult.error := by
  have hce : calculate_ema l tf = none := by
    rw [calculate_ema]
    exact if_pos h
  rcases hcp : (match cp with
    | none => l.getLast?
    | some p => some p) with _ | p <;>
    simp [analyzeStep, hcp, hce]

/-- With a ticker price available, the loop body always threads it through
unchanged. -/
theorem analyzeStep_fst_some (p : ℚ) (fetched : Option (List ℚ)) (tf : Tf) :
    (analyzeStep (some p) fetched tf).1 = some p := by
  rcases fetched with _ | prices
  · rfl
  · rcases hce : calculate_ema prices tf with _ | e <;> simp [analyzeStep, hce]

/-- With a ticker price available, each timeframe's entry is a function of the
ticker and that timeframe's own candles only. -/
theorem analyze_ema_ticker (env : EmaFetchEnv) (p : ℚ) (h : env.ticker = some p)
    (tf : Tf) :
    (analyze_ema env).get tf = (analyzeStep (some p) (env.candles tf) tf).2 := by
  cases tf <;>
    simp only [analyze_ema, EmaResults.get, EmaFetchEnv.candles, h,
      analyzeStep_fst_some]

/-- C7 counterexample: with the ticker unavailable, the two environments below
differ only in the 15m candles (insufficient in the first, sufficient in the
second), yet their 1h entries differ — the 15m failure changes the 1h result
through the shared `current_price` fallback, so "the results of all other
timeframes are unaffected" fails as stated. -/
def envA : EmaFetchEnv :=
  ⟨none, some [50], some (List.replicate 210 100), none, none⟩

/-- The comparison environment for the C7 counterexample: identical to `envA`
except that the 15m timeframe has sufficient data. -/
def envB : EmaFetchEnv :=
  ⟨none, some (List.replicate 200 100), some (List.replicate 210 100), none, none⟩

set_option maxRecDepth 1000000 in
/-- C7 is false as stated: `envA`'s 15m data is insufficient and duly yields
an error entry, `envA` and `envB` agree on the ticker and on every timeframe
other than 15m, yet their 1h entries differ. -/
theorem ema_error_isolation_counterexample :
    envA.ticker = envB.ticker ∧ envA.c1h = envB.c1h ∧ envA.c4h = envB.c4h ∧
    envA.c1d = envB.c1d ∧
    (∃ l, envA.c15 = some l ∧ l.length <
      (PRODUCTION_CONFIGS Tf.m15).sma_period +
        (PRODUCTION_CONFIGS Tf.m15).ema_period) ∧
    (analyze_ema envA).m15 = EmaResult.error ∧
    (analyze_ema envA).h1 ≠ (analyze_ema envB).h1 := by
  refine ⟨rfl, rfl, rfl, rfl, ⟨[50], rfl, by decide⟩, by decide, by decide⟩

/-- C7 amended: a timeframe with insufficient close data always gets a
per-timeframe error entry (and every other timeframe still gets its own entry
— the analysis never aborts); and provided the live ticker price is available,
each timeframe's entry depends only on its own fetched candles, so one
timeframe's failure leaves the others unaffected. When the ticker is
unavailable, the `current_price` fallback is taken from the first timeframe
whose fetch returned candles and is shared by the later timeframes, which is
the coupling exhibited by the counterexample. -/
theorem ema_error_isolation_amended :
    (∀ (env : EmaFetchEnv) (tf : Tf) (l : List ℚ), env.candles tf = some l →
      l.length < (PRODUCTION_CONFIGS tf).sma_period +
        (PRODUCTION_CONFIGS tf).ema_period →
      (analyze_ema env).get tf = EmaResult.error) ∧
    (∀ (p : ℚ) (env env' : EmaFetchEnv) (tf : Tf), env.ticker = some p →
      env'.ticker = some p → env.candles tf = env'.candles tf →
      (analyze_ema env).get tf = (analyze_ema env').get tf) := by
  constructor
  · intro env tf l hl hlen
    have hstep : ∀ cp, (analyzeStep cp (env.candles tf) tf).2 = EmaResult.error := by
      intro cp
      rw [hl]
      exact analyzeStep_insufficient cp l tf hlen
    cases tf <;>
      simpa only [analyze_ema, EmaResults.get, EmaFetchEnv.candles] using hstep _
  · intro p env env' tf hp hp' hcand
    rw [analyze_ema_ticker env p hp tf, analyze_ema_ticker env' p hp' tf, hcand]

/-- Witness environment: ticker available, insufficient 15m data. -/
def envC : EmaFetchEnv := ⟨some 100, some [50], some [60], none, none⟩

/-- Same ticker and 1h candles as `envC`, different 15m candles. -/
def envD : EmaFetchEnv := ⟨some 100, some [70, 80], some [60], none, none⟩

/-- Witness for the amended C7 at concrete environments. -/
theorem ema_error_isolation_amended_witness :
    (analyze_ema envC).get Tf.m15 = EmaResult.error ∧
    (analyze_ema envC).get Tf.h1 = (analyze_ema envD).get Tf.h1 :=
  ⟨ema_error_isolation_amended.1 envC Tf.m15 [50] rfl (by decide),
   ema_error_isolation_amended.2 100 envC envD Tf.h1 rfl rfl rfl⟩

/-! ## C8 -/

/-- Every valid volume entry has `is_volume_spike = false` (decidable form
of Scenario B's hypothesis). -/
def all_spikes_false (vol : VolumeData) : Bool :=
  tfOrder.all fun tf =>
    match vol.get tf with
    | VolumeResult.ok d => !d.is_volume_spike
    | VolumeResult.error => true

/-- A quiet 15m entry carrying a `potential_reversal` divergence. -/
def volRevEntry : VolumeEntry :=
  ⟨100, 100, 0, false, some Divergence.potential_reversal, none, 0, 0⟩

/-- Volume data: all spikes false, a reversal divergence on 15m. -/
def volRev : VolumeData := ⟨VolumeResult.ok volRevEntry, VolumeResult.error,
  VolumeResult.error, VolumeResult.error⟩

/-- C8 is false as stated: with every timeframe's `is_volume_spike` false and
no significant price move, the divergence rule (which is ungated) still emits
a `potential_reversal` alert, so the batch is not empty. -/
theorem scenario_b_counterexample :
    all_spikes_false volRev = true ∧
    (check_price_context emaErr).significant_move = false ∧
    generate_alerts emaErr volRev ≠ [] := by
  refine ⟨by decide, by decide, by decide⟩

/-- C8 amended: if additionally no valid timeframe's `volume_spike_pct` is at
or below its low-volume threshold and no valid timeframe carries a
`bearish_divergence`/`potential_reversal` classification, then a cycle with
every `is_volume_spike` false and no significant move emits no alert at all.
The hypothesis `volume_spike_pct < VOLUME_CONFIGS.spike_threshold` restates
`is_volume_spike = false` through the volume engine's invariant (C5); the
engine threshold is at most the confluence engine's per-timeframe spike
threshold, so no volume-spike alert can fire either. -/
theorem scenario_b_amended (ema : EmaResults) (vol : VolumeData)
    (hsig : (check_price_context ema).significant_move = false)
    (hinv : ∀ tf d, vol.get tf = VolumeResult.ok d →
      d.is_volume_spike = false ∧
      d.volume_spike_pct < (VOLUME_CONFIGS tf).spike_threshold ∧
      (volume_alert_config tf).2 < d.volume_spike_pct ∧
      d.divergence ≠ some Divergence.bearish_divergence ∧
      d.divergence ≠ some Divergence.potential_reversal) :
    generate_alerts ema vol = [] := by
  have hvf : ∀ tf, volume_alerts_for tf (vol.get tf) = [] := by
    intro tf
    rcases hr : vol.get tf with d | _
    · obtain ⟨_, hlt, hlow, _, _⟩ := hinv tf d hr
      have hthr : (VOLUME_CONFIGS tf).spike_threshold ≤
          (volume_alert_config tf).1 := by
        cases tf <;> norm_num [VOLUME_CONFIGS, volume_alert_config]
      simp only [volume_alerts_for]
      rw [if_neg (not_le.mpr (lt_of_lt_of_le hlt hthr)),
        if_neg (not_le.mpr hlow)]
    · rfl
  have hvol : check_volume_alerts vol = [] := by
    simp [check_volume_alerts, tfOrder, hvf]
  have hoi : check_oi_alerts vol (check_price_context ema) = [] := by
    simp [check_oi_alerts, hsig]
  have hec : ∀ tf, ema_confluence_for tf (ema.get tf) (vol.get tf)
      (check_price_context ema) = [] := by
    intro tf
    rcases he : ema.get tf with e | _ <;> rcases hv : vol.get tf with d | _ <;>
      simp only [ema_confluence_for]
    obtain ⟨hsp, _, _, _, _⟩ := hinv tf d hv
    simp [hsp]
  have hecl : check_ema_confluence_alerts ema vol (check_price_context ema) = [] := by
    simp [check_ema_confluence_alerts, tfOrder, hec]
  have hdv : ∀ tf, divergence_alerts_for tf (vol.get tf) = [] := by
    intro tf
    rcases hr : vol.get tf with d | _
    · obtain ⟨_, _, _, hbd, hpr⟩ := hinv tf d hr
      simp only [divergence_alerts_for]
    · rfl
  have hdvl : check_divergence_alerts vol = [] := by
    simp [check_divergence_alerts, tfOrder, hdv]
  have hspk : volume_spike_count ema vol = 0 := by
    have hz : ∀ tf, tf_spiking ema vol tf = 0 := by
      intro tf
      rcases he : ema.get tf with e | _ <;> rcases hv : vol.get tf with d | _ <;>
        simp only [tf_spiking, he, hv]
      obtain ⟨hsp, _, _, _, _⟩ := hinv tf d hv
      simp [hsp]
    simp [volume_spike_count, tfOrder, hz]
  have hmt : check_multi_timeframe_alerts ema vol = [] := by
    simp [check_multi_timeframe_alerts, hspk]
  rw [generate_alerts, all_alerts_raw]
  simp [hvol, hoi, hecl, hsig, hdvl, hmt, sortAlerts, List.insertionSort]

/-- A quiet 15m entry with no divergence. -/
def volQuietEntry : VolumeEntry := ⟨100, 100, 0, false, none, none, 0, 0⟩

/-- Quiet volume data for the amended C8's witness. -/
def volQuiet : VolumeData := ⟨VolumeResult.ok volQuietEntry, VolumeResult.error,
  VolumeResult.error, VolumeResult.error⟩

/-- Witness for the amended C8: the quiet concrete cycle emits nothing. -/
theorem scenario_b_amended_witness : generate_alerts emaErr volQuiet = [] :=
  scenario_b_amended emaErr volQuiet (by decide) (by
    intro tf d h
    cases tf <;> (cases h; all_goals decide))

/-! ## C9 -/

/-- Each both-valid timeframe counts towards exactly one of the bullish and
bearish EMA counters. -/
theorem tf_bullish_add_bearish (ema : EmaResults) (vol : VolumeData) (tf : Tf) :
    tf_bullish ema vol tf + tf_bearish ema vol tf = tf_valid ema vol tf := by
  rcases he : ema.get tf with e | _ <;> rcases hv : vol.get tf with d | _ <;>
    simp only [tf_bullish, tf_bearish, tf_valid, he, hv]
  cases e.above_ema <;> rfl

/-- `bullish_ema_count + bearish_ema_count = valid_timeframes`. -/
theorem bull_add_bear (ema : EmaResults) (vol : VolumeData) :
    bullish_ema_count ema vol + bearish_ema_count ema vol =
      valid_timeframes ema vol := by
  have h1 := tf_bullish_add_bearish ema vol Tf.m15
  have h2 := tf_bullish_add_bearish ema vol Tf.h1
  have h3 := tf_bullish_add_bearish ema vol Tf.h4
  have h4 := tf_bullish_add_bearish ema vol Tf.d1
  simp only [bullish_ema_count, bearish_ema_count, valid_timeframes, tfOrder,
    List.map_cons, List.map_nil, List.sum_cons, List.sum_nil]
  omega

/-- At most four timeframes are valid. -/
theorem valid_le_four (ema : EmaResults) (vol : VolumeData) :
    valid_timeframes ema vol ≤ 4 := by
  have hb : ∀ tf, tf_valid ema vol tf ≤ 1 := by
    intro tf
    rcases he : ema.get tf with e | _ <;> rcases hv : vol.get tf with d | _ <;>
      simp [tf_valid, he, hv]
  have h1 := hb Tf.m15
  have h2 := hb Tf.h1
  have h3 := hb Tf.h4
  have h4 := hb Tf.d1
  simp only [valid_timeframes, tfOrder, List.map_cons, List.map_nil,
    List.sum_cons, List.sum_nil]
  omega

/-- C9: the multi-timeframe alignment rule is consulted only when
`above_ema_count ≥ 3` — a batch contains an alignment alert only under that
gate; and whenever the rule runs with at least 3 valid timeframes, at least 3
timeframes agreeing on an EMA side, and at least 2 timeframes volume-spiking,
it emits the critical alignment alert for that side. -/
theorem multi_tf_alignment_rule (ema : EmaResults) (vol : VolumeData) :
    (∀ a ∈ generate_alerts ema vol,
      a.type = AlertType.multi_tf_bullish ∨ a.type = AlertType.multi_tf_bearish →
      3 ≤ (check_price_context ema).above_ema_count) ∧
    (3 ≤ valid_timeframes ema vol → 3 ≤ bullish_ema_count ema vol →
      2 ≤ volume_spike_count ema vol →
      (⟨AlertType.multi_tf_bullish, ATf.multi, Priority.critical,
        "multi_tf_bullish"⟩ : Alert) ∈ check_multi_timeframe_alerts ema vol) ∧
    (3 ≤ valid_timeframes ema vol → 3 ≤ bearish_ema_count ema vol →
      2 ≤ volume_spike_count ema vol →
      (⟨AlertType.multi_tf_bearish, ATf.multi, Priority.critical,
        "multi_tf_bearish"⟩ : Alert) ∈ check_multi_timeframe_alerts ema vol) := by
  refine ⟨?_, ?_, ?_⟩
  · intro a ha hty
    rw [mem_generate_alerts] at ha
    simp only [all_alerts_raw, List.mem_append] at ha
    rcases ha with ((((hv | ho) | he) | ht) | hd) | hm
    · rcases volume_alerts_type hv with h | h <;> rw [h] at hty <;>
        rcases hty with h2 | h2 <;> cases h2
    · obtain ⟨_, hty2, _⟩ := oi_alerts_shape ho
      rcases hty2 with h | h <;> rw [h] at hty <;>
        rcases hty with h2 | h2 <;> cases h2
    · rcases ema_confluence_type he with h | h <;> rw [h] at hty <;>
        rcases hty with h2 | h2 <;> cases h2
    · split at ht
      · rcases triple_confluence_type ht with h | h <;> rw [h] at hty <;>
          rcases hty with h2 | h2 <;> cases h2
      · cases ht
    · rcases divergence_alerts_shape hd with ⟨h, _⟩ | ⟨h, _⟩ <;> rw [h] at hty <;>
        rcases hty with h2 | h2 <;> cases h2
    · split at hm
      case isTrue hgate => exact hgate
      case isFalse => cases hm
  · intro hvalid hbull hspk
    rw [check_multi_timeframe_alerts, if_pos hvalid, if_pos ⟨hbull, hspk⟩]
    exact List.mem_singleton.mpr rfl
  · intro hvalid hbear hspk
    have hsum := bull_add_bear ema vol
    have h4 := valid_le_four ema vol
    have hnb : ¬ (3 ≤ bullish_ema_count ema vol ∧
        2 ≤ volume_spike_count ema vol) := by
      rintro ⟨h3, _⟩
      omega
    rw [check_multi_timeframe_alerts, if_pos hvalid, if_neg hnb,
      if_pos ⟨hbear, hspk⟩]
    exact List.mem_singleton.mpr rfl

/-- EMA data: all four timeframes above the EMA by a non-significant margin. -/
def emaAbove : EmaResults :=
  ⟨EmaResult.ok ⟨101, 100, 1, true⟩, EmaResult.ok ⟨101, 100, 1, true⟩,
   EmaResult.ok ⟨101, 100, 1, true⟩, EmaResult.ok ⟨101, 100, 1, true⟩⟩

/-- EMA data: all four timeframes below the EMA by a non-significant margin. -/
def emaBelow : EmaResults :=
  ⟨EmaResult.ok ⟨99, 100, -1, false⟩, EmaResult.ok ⟨99, 100, -1, false⟩,
   EmaResult.ok ⟨99, 100, -1, false⟩, EmaResult.ok ⟨99, 100, -1, false⟩⟩

/-- Volume data: spikes on 15m and 1h (below the confluence engine's alert
thresholds), quiet elsewhere. -/
def volSp2 : VolumeData :=
  ⟨VolumeResult.ok ⟨100, 62, 60, true, none, none, 0, 0⟩,
   VolumeResult.ok ⟨100, 55, 80, true, none, none, 0, 0⟩,
   VolumeResult.ok ⟨100, 100, 0, false, none, none, 0, 0⟩,
   VolumeResult.ok ⟨100, 100, 0, false, none, none, 0, 0⟩⟩

/-- Witness for C9: the gate consequence at a concrete batch containing the
bullish alignment alert, plus both rule-level emissions at concrete data. -/
theorem multi_tf_alignment_rule_witness :
    3 ≤ (check_price_context emaAbove).above_ema_count ∧
    (⟨AlertType.multi_tf_bullish, ATf.multi, Priority.critical,
      "multi_tf_bullish"⟩ : Alert) ∈ check_multi_timeframe_alerts emaAbove volSp2 ∧
    (⟨AlertType.multi_tf_bearish, ATf.multi, Priority.critical,
      "multi_tf_bearish"⟩ : Alert) ∈ check_multi_timeframe_alerts emaBelow volSp2 :=
  ⟨(multi_tf_alignment_rule emaAbove volSp2).1
      ⟨AlertType.multi_tf_bullish, ATf.multi, Priority.critical, "multi_tf_bullish"⟩
      (by decide) (Or.inl rfl),
   (multi_tf_alignment_rule emaAbove volSp2).2.1 (by decide) (by decide) (by decide),
   (multi_tf_alignment_rule emaBelow volSp2).2.2 (by decide) (by decide) (by decide)⟩

/-! ## C10 -/

/-- C10 is false as stated: nothing in the engine marks divergence-class
alerts "force". A `potential_reversal` alert is dispatched in a first cycle,
and in a second cycle 10 seconds later the same alert qualifies (it is high
priority and in the batch) yet no notification is attempted — the cooldown
suppresses it like any other alert. -/
theorem divergence_force_counterexample :
    (run_confluence_analysis emaErr volRev 0 []).notifications_sent = 1 ∧
    (run_confluence_analysis emaErr volRev 10
      (run_confluence_analysis emaErr volRev 0 []).last_alerts).notifications_sent
      = 0 ∧
    (⟨AlertType.potential_reversal, ATf.tf Tf.m15, Priority.high,
      "reversal_15m"⟩ : Alert) ∈
      (run_confluence_analysis emaErr volRev 10
        (run_confluence_analysis emaErr volRev 0 []).last_alerts).alerts := by
  refine ⟨by decide, by decide, by decide⟩

/-- A suppressed `should_send_alert` leaves the cooldown map unchanged. -/
theorem should_send_false_snd (m : CooldownMap) (key : String) (now : ℚ)
    (h : ¬ (should_send_alert m key now).1 = true) :
    (should_send_alert m key now).2 = m := by
  rcases hl : lookupKey m key with _ | t
  · exfalso
    apply h
    simp [should_send_alert, hl]
  · by_cases hwin : now - t < alert_cooldown
    · simp [should_send_alert, hl, hwin]
    · exfalso
      apply h
      simp [should_send_alert, hl, hwin]

/-- A successful `should_send_alert` records the current time for its key. -/
theorem should_send_true_snd (m : CooldownMap) (key : String) (now : ℚ) :
    (should_send_alert m key now).1 = true →
    (should_send_alert m key now).2 = setKey m key now := by
  intro _
  rcases hl : lookupKey m key with _ | t
  · simp [should_send_alert, hl]
  · by_cases hwin : now - t < alert_cooldown
    · rename_i h
      exfalso
      revert h
      simp [should_send_alert, hl, hwin]
    · simp [should_send_alert, hl, hwin]

/-- A successful `should_send_alert` certifies the key was absent or outside
the cooldown window. -/
theorem should_send_true_window (m : CooldownMap) (key : String) (now : ℚ)
    (h : (should_send_alert m key now).1 = true) :
    lookupKey m key = none ∨
      ∃ t, lookupKey m key = some t ∧ alert_cooldown ≤ now - t := by
  rcases hl : lookupKey m key with _ | t
  · exact Or.inl rfl
  · right
    refine ⟨t, rfl, ?_⟩
    by_cases hwin : now - t < alert_cooldown
    · exfalso
      revert h
      simp [should_send_alert, hl, hwin]
    · exact not_lt.mp hwin

/-- Every key actually dispatched in a pass belongs to a critical- or
high-priority alert of the batch and was outside the cooldown window in the
incoming state: no alert bypasses the cooldown. -/
theorem dispatched_key_shape (now : ℚ) :
    ∀ (alerts : List Alert) (m : CooldownMap) (k : String),
      k ∈ (dispatch_alerts now alerts m).2.1 →
      (∃ a ∈ alerts, a.alert_key = k ∧
        (a.priority = Priority.critical ∨ a.priority = Priority.high)) ∧
      (lookupKey m k = none ∨
        ∃ t, lookupKey m k = some t ∧ alert_cooldown ≤ now - t) := by
  intro alerts
  induction alerts with
  | nil =>
    intro m k hk
    simp [dispatch_alerts] at hk
  | cons a rest ih =>
    intro m k hk
    by_cases helig : a.priority = Priority.critical ∨ a.priority = Priority.high
    · by_cases hsent : (should_send_alert m a.alert_key now).1 = true
      · rw [dispatch_cons_sent now a rest m helig hsent] at hk
        rcases List.mem_cons.mp hk with hk1 | hk2
        · subst hk1
          exact ⟨⟨a, List.mem_cons_self a rest, rfl, helig⟩,
            should_send_true_window m a.alert_key now hsent⟩
        · obtain ⟨⟨a', ha', hk', hp'⟩, hw⟩ :=
            ih (should_send_alert m a.alert_key now).2 k hk2
          refine ⟨⟨a', List.mem_cons_of_mem a ha', hk', hp'⟩, ?_⟩
          by_cases hkeq : k = a.alert_key
          · subst hkeq
            rw [should_send_true_snd m a.alert_key now hsent] at hw
            rw [lookup_setKey_self m a.alert_key now] at hw
            rcases hw with hw | ⟨t, ht, hcd⟩
            · cases hw
            · cases Option.some.inj ht
              exfalso
              rw [sub_self] at hcd
              exact absurd hcd (by norm_num [alert_cooldown])
          · rwa [should_send_alert_preserves m a.alert_key k now hkeq] at hw
      · rw [dispatch_cons_skip now a rest m helig hsent,
          should_send_false_snd m a.alert_key now hsent] at hk
        obtain ⟨⟨a', ha', hk', hp'⟩, hw⟩ := ih m k hk
        exact ⟨⟨a', List.mem_cons_of_mem a ha', hk', hp'⟩, hw⟩
    · rw [dispatch_cons_inelig now a rest m helig] at hk
      obtain ⟨⟨a', ha', hk', hp'⟩, hw⟩ := ih m k hk
      exact ⟨⟨a', List.mem_cons_of_mem a ha', hk', hp'⟩, hw⟩

/-- C10 amended: divergence-class alerts carry no force flag and receive no
cooldown bypass. `bearish_divergence` alerts are always medium priority (so
the dispatch loop, which only considers critical/high, never sends them), and
every dispatched key — `potential_reversal` included — was outside the
cooldown window in the cycle's incoming state. -/
theorem divergence_cooldown_amended :
    (∀ (ema : EmaResults) (vol : VolumeData) (a : Alert),
      a ∈ generate_alerts ema vol → a.type = AlertType.bearish_divergence →
      a.priority = Priority.medium) ∧
    (∀ (alerts : List Alert) (now : ℚ) (m : CooldownMap) (k : String),
      k ∈ (dispatch_alerts now alerts m).2.1 →
      (∃ a ∈ alerts, a.alert_key = k ∧
        (a.priority = Priority.critical ∨ a.priority = Priority.high)) ∧
      (lookupKey m k = none ∨
        ∃ t, lookupKey m k = some t ∧ alert_cooldown ≤ now - t)) := by
  constructor
  · intro ema vol a ha hty
    rw [mem_generate_alerts] at ha
    simp only [all_alerts_raw, List.mem_append] at ha
    rcases ha with ((((hv | ho) | he) | ht) | hd) | hm
    · rcases volume_alerts_type hv with h | h <;> rw [h] at hty <;> cases hty
    · obtain ⟨_, hty2, _⟩ := oi_alerts_shape ho
      rcases hty2 with h | h <;> rw [h] at hty <;> cases hty
    · rcases ema_confluence_type he with h | h <;> rw [h] at hty <;> cases hty
    · split at ht
      · rcases triple_confluence_type ht with h | h <;> rw [h] at hty <;> cases hty
      · cases ht
    · rcases divergence_alerts_shape hd with ⟨_, hp⟩ | ⟨h, _⟩
      · exact hp
      · rw [h] at hty
        cases hty
    · split at hm
      · rcases multi_tf_type hm with h | h <;> rw [h] at hty <;> cases hty
      · cases hm
  · exact fun alerts now m k => dispatched_key_shape now alerts m k

/-- A 15m entry carrying a `bearish_divergence` classification. -/
def volBear : VolumeData :=
  ⟨VolumeResult.ok ⟨100, 100, 0, false, some Divergence.bearish_divergence, none,
    0, 0⟩, VolumeResult.error, VolumeResult.error, VolumeResult.error⟩

/-- Witness for the amended C10: the concrete bearish-divergence alert is
medium priority, and a concrete dispatched reversal key certifies the
no-bypass property. -/
theorem divergence_cooldown_amended_witness :
    (⟨AlertType.bearish_divergence, ATf.tf Tf.m15, Priority.medium,
      "bearish_div_15m"⟩ : Alert).priority = Priority.medium ∧
    ((∃ a ∈ generate_alerts emaErr volRev, a.alert_key = "reversal_15m" ∧
        (a.priority = Priority.critical ∨ a.priority = Priority.high)) ∧
      (lookupKey [] "reversal_15m" = none ∨
        ∃ t, lookupKey [] "reversal_15m" = some t ∧
          alert_cooldown ≤ (0:ℚ) - t)) :=
  ⟨divergence_cooldown_amended.1 emaErr volBear
      ⟨AlertType.bearish_divergence, ATf.tf Tf.m15, Priority.medium,
        "bearish_div_15m"⟩ (by decide) rfl,
   divergence_cooldown_amended.2 (generate_alerts emaErr volRev) 0 []
      "reversal_15m" (by decide)⟩

end AlertIQ
